import Mathlib

/-!
Verification development for the FlowMetrics accumulator of
ptlflow/utils/flow_metrics.py.

The embedding works over exact rationals.  Tensors are modelled at the
level at which the accumulator manipulates them: after canonicalization a
batch is a list of samples and every per-pixel quantity of one sample is a
flattened list of rationals (the source always flattens the spatial
dimensions with view(shape0, -1) before reducing).  The per-pixel endpoint
error and the per-pixel target-flow norm are carried as sample data, since
they are square roots of the rational quantities computed from the flow
fields (epeSqList below gives the squared error from the flow fields
themselves).  Shape canonicalization is modelled separately as arithmetic
on shape lists, exactly following FlowMetrics._fix_shape and
FlowMetrics._get_batch_size.

Not modelled (no claim needs them): bilinear interpolation of predictions
(interpolate_pred_to_target_size=False path is the one embedded), the
multi-hypothesis minimum (rank-5 target after canonicalization), the
motion-boundary / confidence / occlusion-prediction F1 accumulation into
the running state (the per-sample F1 formula itself is embedded as
singleF1score), and torchmetrics distributed reduction.
-/

namespace PtlFlow

/-- Python's int() applied to a rational: truncation toward zero. -/
def pyTrunc (q : ℚ) : ℤ := if 0 ≤ q then ⌊q⌋ else ⌈q⌉

/-- Configuration fixed at construction (FlowMetrics.__init__).
pfx is the source's prefix attribute (renamed).  emaMaxCount is the
precomputed self.ema_max_count = min(100, int(1.0 / (1.0 - ema_decay))). -/
structure Config where
  averageMode : String
  pfx : String
  emaDecay : ℚ
  f1Mode : String
  emaMaxCount : ℤ

/-- Running state of the accumulator: one rational running sum per tracked
statistic (the add_state calls of __init__), the two counters, and the
used_keys list (first components of the source's triples: the names of the
statistics computed by the most recent update call). -/
structure MetricState where
  epe : ℚ
  epeNonOcc : ℚ
  epeOcc : ℚ
  px1 : ℚ
  px1NonOcc : ℚ
  px1Occ : ℚ
  px3 : ℚ
  px3NonOcc : ℚ
  px3Occ : ℚ
  px5 : ℚ
  px5NonOcc : ℚ
  px5Occ : ℚ
  flall : ℚ
  flallNonOcc : ℚ
  flallOcc : ℚ
  wauc : ℚ
  waucNonOcc : ℚ
  waucOcc : ℚ
  occF1 : ℚ
  mbF1 : ℚ
  confF1 : ℚ
  sampleCount : ℚ
  stepCount : ℕ
  usedKeys : List String

attribute [ext] MetricState

/-- The state right after construction: every running sum and both
counters zero, used_keys empty. -/
def initMetricState : MetricState :=
  { epe := 0, epeNonOcc := 0, epeOcc := 0
    px1 := 0, px1NonOcc := 0, px1Occ := 0
    px3 := 0, px3NonOcc := 0, px3Occ := 0
    px5 := 0, px5NonOcc := 0, px5Occ := 0
    flall := 0, flallNonOcc := 0, flallOcc := 0
    wauc := 0, waucNonOcc := 0, waucOcc := 0
    occF1 := 0, mbF1 := 0, confF1 := 0
    sampleCount := 0, stepCount := 0, usedKeys := [] }

/-- FlowMetrics.__init__: the assert accepts exactly the two averaging
modes; afterwards ema_max_count = min(100, int(1.0 / (1.0 - ema_decay)))
is computed unconditionally, which in Python raises ZeroDivisionError when
ema_decay = 1 (modelled as none). -/
def flowMetricsInit (averageMode pfx : String) (emaDecay : ℚ)
    (f1Mode : String) : Option (Config × MetricState) :=
  if averageMode = "epoch_mean" ∨ averageMode = "ema" then
    if (1 : ℚ) - emaDecay = 0 then none
    else
      some ({ averageMode := averageMode, pfx := pfx, emaDecay := emaDecay,
              f1Mode := f1Mode,
              emaMaxCount := min 100 (pyTrunc (1 / (1 - emaDecay))) },
            initMetricState)
  else none

/-- px1_mask = (epe < 1).float() applied pixelwise. -/
def px1Mask (epe : List ℚ) : List ℚ := epe.map (fun e => if e < 1 then 1 else 0)

/-- px3_mask = (epe < 3).float() applied pixelwise. -/
def px3Mask (epe : List ℚ) : List ℚ := epe.map (fun e => if e < 3 then 1 else 0)

/-- px5_mask = (epe < 5).float() applied pixelwise. -/
def px5Mask (epe : List ℚ) : List ℚ := epe.map (fun e => if e < 5 then 1 else 0)

/-- flall_mask = ((epe > 3) and (epe > 0.05 * target_norm)).float() * 100,
pixelwise over the endpoint error and the target-flow norm. -/
def flallMask (epe targetNorm : List ℚ) : List ℚ :=
  List.zipWith (fun e t => (if 3 < e ∧ (1 / 20) * t < e then 1 else 0) * 100)
    epe targetNorm

/-- One sample's contribution inside FlowMetrics._compute_total: the
masked sum divided by the valid-pixel count clamped at a minimum of 1. -/
def sampleTotal (tensor valid : List ℚ) : ℚ :=
  (List.zipWith (· * ·) tensor valid).sum / max valid.sum 1

/-- FlowMetrics._compute_total: per-sample weighted means, then reduced
over the batch by sum (epoch_mean) or mean (ema). -/
def computeTotal (mode : String) (tensors valids : List (List ℚ)) : ℚ :=
  let per := List.zipWith sampleTotal tensors valids
  if mode = "epoch_mean" then per.sum else per.sum / per.length

/-- The 100 (weight, threshold) pairs of the wAUC loop: for i = 1..100,
wi = 1 - (i-1)/100 and deltai = i/20 (here indexed by j = i - 1). -/
def waucTerms : List (ℚ × ℚ) :=
  (List.range 100).map (fun j : ℕ => (1 - (j : ℚ) / 100, ((j : ℚ) + 1) / 20))

/-- One sample's score in FlowMetrics._compute_total_wauc: the error is
replaced by the sentinel 100 wherever valid < 0.5, the denominator uses
the raw fractional validity sum, and 1e-8 guards zero division. -/
def waucSample (epe valid : List ℚ) : ℚ :=
  let e := List.zipWith (fun ev vv => if vv < 1 / 2 then (100 : ℚ) else ev) epe valid
  let wsum := (waucTerms.map
    (fun p => p.1 * ((e.filter (fun x => x ≤ p.2)).length : ℚ))).sum
  let sumWi := (waucTerms.map Prod.fst).sum
  100 * wsum / (valid.sum * sumWi + 1 / 100000000)

/-- FlowMetrics._compute_total_wauc: per-sample scores reduced over the
batch by sum (epoch_mean) or mean (ema). -/
def computeTotalWauc (mode : String) (epes valids : List (List ℚ)) : ℚ :=
  let per := List.zipWith waucSample epes valids
  if mode = "epoch_mean" then per.sum else per.sum / per.length

/-- The six statistic keys update always activates (lines 209-216). -/
def usedKeysBase : List String := ["epe", "px1", "px3", "px5", "flall", "wauc"]

/-- The twelve extra keys activated when an occlusion target is present
(lines 221-236). -/
def usedKeysOcc : List String :=
  ["epe_occ", "epe_non_occ", "px1_occ", "px1_non_occ", "px3_occ",
   "px3_non_occ", "px5_occ", "px5_non_occ", "flall_occ", "flall_non_occ",
   "wauc_occ", "wauc_non_occ"]

/-- One canonicalized batch as consumed by update: per sample, the
flattened per-pixel endpoint error, target-flow norm and validity mask
(channel 0), plus the optional occlusion target (channel 0).  The batch
size seen by the counters is the number of samples. -/
structure BatchData where
  epe : List (List ℚ)
  targetNorm : List (List ℚ)
  valid : List (List ℚ)
  occ : Option (List (List ℚ))

/-- The first n samples of a batch (a split along the batch dimension). -/
def batchTake (n : ℕ) (b : BatchData) : BatchData :=
  { epe := b.epe.take n, targetNorm := b.targetNorm.take n,
    valid := b.valid.take n, occ := b.occ.map (List.take n) }

/-- The remaining samples of a batch after the first n. -/
def batchDrop (n : ℕ) (b : BatchData) : BatchData :=
  { epe := b.epe.drop n, targetNorm := b.targetNorm.drop n,
    valid := b.valid.drop n, occ := b.occ.map (List.drop n) }

/-- FlowMetrics.update for a canonicalized batch: computes the per-pixel
masks, the soft occlusion split valid_occ = occ * valid and
valid_non_occ = (1 - occ) * valid when the occlusion target is present,
folds each statistic with running = prev_weight * running +
next_weight * batch_value where the weights are (1,1) for epoch_mean and
(decay, 1-decay) for ema, reassigns used_keys, and bumps both counters. -/
def flowUpdate (cfg : Config) (b : BatchData) (s : MetricState) : MetricState :=
  let pw : ℚ := if cfg.averageMode = "epoch_mean" then 1 else cfg.emaDecay
  let nw : ℚ := if cfg.averageMode = "epoch_mean" then 1 else 1 - cfg.emaDecay
  let md := cfg.averageMode
  let px1T := b.epe.map px1Mask
  let px3T := b.epe.map px3Mask
  let px5T := b.epe.map px5Mask
  let flallT := List.zipWith flallMask b.epe b.targetNorm
  match b.occ with
  | none =>
    { s with
      epe := pw * s.epe + nw * computeTotal md b.epe b.valid
      px1 := pw * s.px1 + nw * computeTotal md px1T b.valid
      px3 := pw * s.px3 + nw * computeTotal md px3T b.valid
      px5 := pw * s.px5 + nw * computeTotal md px5T b.valid
      flall := pw * s.flall + nw * computeTotal md flallT b.valid
      wauc := pw * s.wauc + nw * computeTotalWauc md b.epe b.valid
      sampleCount := s.sampleCount + b.epe.length
      stepCount := s.stepCount + 1
      usedKeys := usedKeysBase }
  | some occT =>
    let validOcc := List.zipWith (List.zipWith (fun o v => o * v)) occT b.valid
    let validNonOcc :=
      List.zipWith (List.zipWith (fun o v => (1 - o) * v)) occT b.valid
    { s with
      epe := pw * s.epe + nw * computeTotal md b.epe b.valid
      px1 := pw * s.px1 + nw * computeTotal md px1T b.valid
      px3 := pw * s.px3 + nw * computeTotal md px3T b.valid
      px5 := pw * s.px5 + nw * computeTotal md px5T b.valid
      flall := pw * s.flall + nw * computeTotal md flallT b.valid
      wauc := pw * s.wauc + nw * computeTotalWauc md b.epe b.valid
      epeOcc := pw * s.epeOcc + nw * computeTotal md b.epe validOcc
      epeNonOcc := pw * s.epeNonOcc + nw * computeTotal md b.epe validNonOcc
      px1Occ := pw * s.px1Occ + nw * computeTotal md px1T validOcc
      px1NonOcc := pw * s.px1NonOcc + nw * computeTotal md px1T validNonOcc
      px3Occ := pw * s.px3Occ + nw * computeTotal md px3T validOcc
      px3NonOcc := pw * s.px3NonOcc + nw * computeTotal md px3T validNonOcc
      px5Occ := pw * s.px5Occ + nw * computeTotal md px5T validOcc
      px5NonOcc := pw * s.px5NonOcc + nw * computeTotal md px5T validNonOcc
      flallOcc := pw * s.flallOcc + nw * computeTotal md flallT validOcc
      flallNonOcc := pw * s.flallNonOcc + nw * computeTotal md flallT validNonOcc
      waucOcc := pw * s.waucOcc + nw * computeTotalWauc md b.epe validOcc
      waucNonOcc := pw * s.waucNonOcc + nw * computeTotalWauc md b.epe validNonOcc
      sampleCount := s.sampleCount + b.epe.length
      stepCount := s.stepCount + 1
      usedKeys := usedKeysBase ++ usedKeysOcc }

/-- The source's getattr(self, key) for the statistic running sums. -/
def statValue (s : MetricState) (k : String) : ℚ :=
  if k = "epe" then s.epe
  else if k = "epe_non_occ" then s.epeNonOcc
  else if k = "epe_occ" then s.epeOcc
  else if k = "px1" then s.px1
  else if k = "px1_non_occ" then s.px1NonOcc
  else if k = "px1_occ" then s.px1Occ
  else if k = "px3" then s.px3
  else if k = "px3_non_occ" then s.px3NonOcc
  else if k = "px3_occ" then s.px3Occ
  else if k = "px5" then s.px5
  else if k = "px5_non_occ" then s.px5NonOcc
  else if k = "px5_occ" then s.px5Occ
  else if k = "flall" then s.flall
  else if k = "flall_non_occ" then s.flallNonOcc
  else if k = "flall_occ" then s.flallOcc
  else if k = "wauc" then s.wauc
  else if k = "wauc_non_occ" then s.waucNonOcc
  else if k = "wauc_occ" then s.waucOcc
  else if k = "occ_f1" then s.occF1
  else if k = "mb_f1" then s.mbF1
  else if k = "conf_f1" then s.confF1
  else 0

/-- The divider of FlowMetrics.calculate_metrics: the sample count in
epoch_mean mode; in ema mode 1.0, minus decay ** step_count while
step_count < ema_max_count. -/
def calcDivider (cfg : Config) (s : MetricState) : ℚ :=
  if cfg.averageMode = "epoch_mean" then s.sampleCount
  else 1 - (if (s.stepCount : ℤ) < cfg.emaMaxCount
            then cfg.emaDecay ^ s.stepCount else 0)

/-- FlowMetrics.calculate_metrics (= compute): one (prefix + key, running
sum / divider) entry per currently recorded used key. -/
def calculateMetrics (cfg : Config) (s : MetricState) : List (String × ℚ) :=
  s.usedKeys.map (fun k => (cfg.pfx ++ k, statValue s k / calcDivider cfg s))

/-- Per-pixel squared endpoint error between two flow fields: the square
of torch.norm(flow_pred - flow_target, p=2, dim=1).  The endpoint error
itself is its square root, so it vanishes exactly where this does. -/
def epeSqList (pred target : List (ℚ × ℚ)) : List ℚ :=
  List.zipWith (fun p t => (p.1 - t.1) ^ 2 + (p.2 - t.2) ^ 2) pred target

/-- The scalar core of FlowMetrics._single_f1_score: precision =
tp/(tp+fp+eps), recall = tp/(tp+fn+eps), f1 = 2*p*r/(p+r+eps). -/
def f1FromCounts (tp fp fn eps : ℚ) : ℚ :=
  let prec := tp / (tp + fp + eps)
  let rec' := tp / (tp + fn + eps)
  2 * prec * rec' / (prec + rec' + eps)

/-- FlowMetrics._single_f1_score for one sample/channel: binarize at 0.5;
tp = pred*target, fp = (1-pred)*target, fn = pred*(1-target) summed over
pixels (the source's own fp/fn naming, swapped from the textbook one). -/
def singleF1score (pred target : List ℚ) (eps : ℚ) : ℚ :=
  let predBin := pred.map (fun x => if 1 / 2 < x then (1 : ℚ) else 0)
  let targetBin := target.map (fun x => if 1 / 2 < x then (1 : ℚ) else 0)
  let tp := (List.zipWith (· * ·) predBin targetBin).sum
  let fp := (List.zipWith (fun p t => (1 - p) * t) predBin targetBin).sum
  let fn := (List.zipWith (fun p t => p * (1 - t)) predBin targetBin).sum
  f1FromCounts tp fp fn eps

/-- Modelled from the spec: the same single F1 computation with the
textbook labelling, fp = prediction-positive/target-negative and
fn = prediction-negative/target-positive, for comparison with
singleF1score. -/
def singleF1scoreSpec (pred target : List ℚ) (eps : ℚ) : ℚ :=
  let predBin := pred.map (fun x => if 1 / 2 < x then (1 : ℚ) else 0)
  let targetBin := target.map (fun x => if 1 / 2 < x then (1 : ℚ) else 0)
  let tp := (List.zipWith (· * ·) predBin targetBin).sum
  let fp := (List.zipWith (fun p t => p * (1 - t)) predBin targetBin).sum
  let fn := (List.zipWith (fun p t => (1 - p) * t) predBin targetBin).sum
  f1FromCounts tp fp fn eps

/-- Modelled from the spec (claim C9's comparison baseline): the validity
mask binarized with the same 0.5 threshold the wAUC sentinel uses. -/
def hardMask (valid : List ℚ) : List ℚ :=
  valid.map (fun v => if v < 1 / 2 then 0 else 1)

/-- FlowMetrics._fix_shape on tensor shapes: rank 2 gains two leading
singleton dims; a rank-3 leading dim is kept as batch exactly when it
equals the reference batch size; rank 5 and rank 6 collapse their two
leading dims into one; anything else is returned unchanged. -/
def fixShape : List ℕ → ℕ → List ℕ
  | [h, w], _ => [1, 1, h, w]
  | [c, h, w], batchSize =>
      if c = batchSize then [c, 1, h, w] else [1, c, h, w]
  | [a, b, c, d, e], _ => [a * b, c, d, e]
  | [a, b, c, d, e, f], _ => [a * b, c, d, e, f]
  | s, _ => s

/-- FlowMetrics._get_batch_size on the target flow shape: 1 below rank 4,
dim0 at rank 4, dim0*dim1 at rank 5, dim0 at rank 6; Python implicitly
returns None for rank 7 and above. -/
def getBatchSize : List ℕ → Option ℕ
  | [a, _, _, _] => some a
  | [a, b, _, _, _] => some (a * b)
  | [a, _, _, _, _, _] => some a
  | s => if s.length < 4 then some 1 else none

/-- An epoch_mean configuration as built by __init__ with the default
arguments (decay 0.99 gives ema_max_count min(100, 100) = 100). -/
def cfgEpoch : Config :=
  { averageMode := "epoch_mean", pfx := "", emaDecay := 99 / 100,
    f1Mode := "macro", emaMaxCount := 100 }

/-! Helper lemmas -/

lemma f1FromCounts_symm (tp fp fn eps : ℚ) :
    f1FromCounts tp fp fn eps = f1FromCounts tp fn fp eps := by
  simp only [f1FromCounts]
  generalize tp / (tp + fp + eps) = p
  generalize tp / (tp + fn + eps) = r
  rw [mul_right_comm 2 p r, add_comm p r]

lemma zipWith_replicate_replicate (f : ℚ → ℚ → ℚ) (m n : ℕ) (a b : ℚ) :
    List.zipWith f (List.replicate m a) (List.replicate n b) =
      List.replicate (min m n) (f a b) := by
  induction m generalizing n with
  | zero => simp
  | succ m ih =>
    cases n with
    | zero => simp
    | succ n =>
      simp [List.replicate_succ, ih, Nat.succ_min_succ]

lemma zipWith_replicate_left (f : ℚ → ℚ → ℚ) (c : ℚ) :
    ∀ (k : ℕ) (l : List ℚ),
      List.zipWith f (List.replicate k c) l = (l.take k).map (f c)
  | 0, _ => by simp
  | _ + 1, [] => by simp
  | k + 1, x :: xs => by
      simp [List.replicate_succ, zipWith_replicate_left f c k xs]

lemma sum_map_mul_right' (l : List (ℚ × ℚ)) (f : ℚ × ℚ → ℚ) (c : ℚ) :
    (l.map (fun x => f x * c)).sum = (l.map f).sum * c := by
  induction l with
  | nil => simp
  | cons x xs ih => simp [ih, add_mul]

lemma waucTerms_sumWi : (waucTerms.map Prod.fst).sum = 101 / 2 := by
  norm_num [waucTerms, List.range_succ]

lemma waucTerms_delta : ∀ p ∈ waucTerms, 0 < p.2 ∧ p.2 ≤ 5 := by
  intro p hp
  rw [waucTerms, List.mem_map] at hp
  obtain ⟨j, hj, rfl⟩ := hp
  rw [List.mem_range] at hj
  refine ⟨by positivity, ?_⟩
  rw [div_le_iff₀ (by norm_num)]
  have hc : (j : ℚ) ≤ 99 := by
    have h99 : j ≤ 99 := Nat.le_of_lt_succ hj
    exact_mod_cast h99
  linarith

lemma waucSample_replicate_large (k : ℕ) (m v : ℚ) (hv : 1 / 2 ≤ v)
    (hm : 5 < m) :
    waucSample (List.replicate k m) (List.replicate k v) = 0 := by
  have hmask : List.zipWith (fun ev vv => if vv < 1 / 2 then (100 : ℚ) else ev)
      (List.replicate k m) (List.replicate k v) = List.replicate (min k k) m := by
    rw [zipWith_replicate_replicate]
    show List.replicate (min k k) (if v < 1 / 2 then (100 : ℚ) else m) = _
    rw [if_neg (not_lt.mpr hv)]
  simp only [waucSample, hmask, min_self]
  have hw : (waucTerms.map (fun p =>
      p.1 * (((List.replicate k m).filter (fun x => x ≤ p.2)).length : ℚ))).sum
        = 0 := by
    apply List.sum_eq_zero
    intro x hx
    simp only [List.mem_map] at hx
    obtain ⟨p, hp, rfl⟩ := hx
    have hd := waucTerms_delta p hp
    have hnle : ¬ (m ≤ p.2) := not_le.mpr (lt_of_le_of_lt hd.2 hm)
    simp [List.filter_replicate, hnle]
  rw [hw]
  simp

lemma waucSample_replicate_zero (k : ℕ) (v : ℚ) (hv : 1 / 2 ≤ v) :
    waucSample (List.replicate k 0) (List.replicate k v) =
      100 * (101 / 2 * k) / ((k : ℚ) * v * (101 / 2) + 1 / 100000000) := by
  have hmask : List.zipWith (fun ev vv => if vv < 1 / 2 then (100 : ℚ) else ev)
      (List.replicate k 0) (List.replicate k v) = List.replicate (min k k) (0 : ℚ) := by
    rw [zipWith_replicate_replicate]
    show List.replicate (min k k) (if v < 1 / 2 then (100 : ℚ) else 0) = _
    rw [if_neg (not_lt.mpr hv)]
  simp only [waucSample, hmask, min_self]
  have hw : (waucTerms.map (fun p =>
      p.1 * (((List.replicate k (0 : ℚ)).filter (fun x => x ≤ p.2)).length : ℚ))).sum
        = 101 / 2 * (k : ℚ) := by
    have hcong : ∀ p ∈ waucTerms,
        p.1 * (((List.replicate k (0 : ℚ)).filter (fun x => x ≤ p.2)).length : ℚ)
          = p.1 * (k : ℚ) := by
      intro p hp
      have hd := waucTerms_delta p hp
      have h0 : (0 : ℚ) ≤ p.2 := le_of_lt hd.1
      simp [List.filter_replicate, h0]
    rw [List.map_congr_left hcong, sum_map_mul_right' waucTerms Prod.fst (k : ℚ),
      waucTerms_sumWi, mul_comm]
  rw [hw, List.sum_replicate, nsmul_eq_mul, waucTerms_sumWi]

lemma sampleTotal_replicate (k : ℕ) (hk : 0 < k) (c : ℚ) :
    sampleTotal (List.replicate k c) (List.replicate k 1) = c := by
  have hk1 : (1 : ℚ) ≤ (k : ℚ) := by exact_mod_cast hk
  have hk0 : (k : ℚ) ≠ 0 := by positivity
  simp only [sampleTotal]
  rw [zipWith_replicate_replicate]
  simp only [min_self, mul_one, List.sum_replicate, nsmul_eq_mul]
  rw [max_eq_left hk1, mul_comm, mul_div_assoc, div_self hk0, mul_one]

lemma sampleTotal_zero_left (n : ℕ) (v : List ℚ) :
    sampleTotal (List.replicate n 0) v = 0 := by
  simp only [sampleTotal]
  rw [zipWith_replicate_left]
  have hz : ((v.take n).map ((0 : ℚ) * ·)).sum = 0 := by
    apply List.sum_eq_zero
    intro x hx
    obtain ⟨y, _, rfl⟩ := List.mem_map.mp hx
    exact zero_mul y
  rw [hz, zero_div]

lemma computeTotal_singleton (mode : String) (t v : List ℚ) :
    computeTotal mode [t] [v] = sampleTotal t v := by
  simp only [computeTotal, List.zipWith_cons_cons, List.zipWith_nil_right,
    List.sum_cons, List.sum_nil, add_zero, List.length_cons, List.length_nil]
  split <;> simp

lemma computeTotalWauc_singleton (mode : String) (t v : List ℚ) :
    computeTotalWauc mode [t] [v] = waucSample t v := by
  simp only [computeTotalWauc, List.zipWith_cons_cons, List.zipWith_nil_right,
    List.sum_cons, List.sum_nil, add_zero, List.length_cons, List.length_nil]
  split <;> simp

lemma computeTotal_drop_eq (n : ℕ) (t v : List (List ℚ)) :
    computeTotal "epoch_mean" (t.drop n) (v.drop n)
      = computeTotal "epoch_mean" t v
        - computeTotal "epoch_mean" (t.take n) (v.take n) := by
  simp only [computeTotal, reduceIte, ← List.drop_zipWith, ← List.take_zipWith]
  exact eq_sub_of_add_eq' (List.sum_take_add_sum_drop _ n)

lemma computeTotalWauc_drop_eq (n : ℕ) (t v : List (List ℚ)) :
    computeTotalWauc "epoch_mean" (t.drop n) (v.drop n)
      = computeTotalWauc "epoch_mean" t v
        - computeTotalWauc "epoch_mean" (t.take n) (v.take n) := by
  simp only [computeTotalWauc, reduceIte, ← List.drop_zipWith, ← List.take_zipWith]
  exact eq_sub_of_add_eq' (List.sum_take_add_sum_drop _ n)

lemma cast_length_take_drop (n : ℕ) (l : List (List ℚ)) :
    ((l.drop n).length : ℚ) = (l.length : ℚ) - ((l.take n).length : ℚ) := by
  have h : (l.take n).length + (l.drop n).length = l.length := by
    rw [← List.length_append, List.take_append_drop]
  have hc := congrArg (Nat.cast : ℕ → ℚ) h
  push_cast at hc
  linarith

lemma flowUpdate_stepCount (cfg : Config) (b : BatchData) (s : MetricState) :
    (flowUpdate cfg b s).stepCount = s.stepCount + 1 := by
  rcases b with ⟨e, t, v, occ⟩
  cases occ <;> simp [flowUpdate]

lemma calculateMetrics_stepCount_irrel (cfg : Config)
    (h : cfg.averageMode = "epoch_mean") (s : MetricState) (m : ℕ) :
    calculateMetrics cfg { s with stepCount := m } = calculateMetrics cfg s := by
  simp only [calculateMetrics, calcDivider, statValue, h, reduceIte]

lemma flowUpdate_epoch_split (cfg : Config) (h : cfg.averageMode = "epoch_mean")
    (b : BatchData) (n : ℕ) (s : MetricState) :
    flowUpdate cfg (batchDrop n b) (flowUpdate cfg (batchTake n b) s)
      = { flowUpdate cfg b s with stepCount := s.stepCount + 1 + 1 } := by
  rcases b with ⟨epe, tn, valid, occ⟩
  cases occ with
  | none =>
    apply MetricState.ext <;>
      simp [flowUpdate, batchTake, batchDrop, h, computeTotal_drop_eq,
        computeTotalWauc_drop_eq, ← List.take_zipWith, ← List.drop_zipWith,
        cast_length_take_drop, -List.length_take, -List.length_drop]
  | some o =>
    apply MetricState.ext <;>
      simp [flowUpdate, batchTake, batchDrop, h, computeTotal_drop_eq,
        computeTotalWauc_drop_eq, ← List.take_zipWith, ← List.drop_zipWith,
        cast_length_take_drop, -List.length_take, -List.length_drop]

/-! Claim theorems -/

/-- C4 (amended): in EMA mode with decay 0 < d < 1, after step_count
steps the divider of calculate_metrics equals 1 - d ^ step_count while
step_count is strictly below min(100, int(1/(1-d))) - the integer
TRUNCATION of 1/(1-d), not 1/(1-d) itself - and equals 1 from that
integer bound onward. -/
theorem claimC4_ema_divider :
    ∀ (d : ℚ) (pfx f1 : String) (c : Config) (s0 : MetricState),
      0 < d → d < 1 →
      flowMetricsInit "ema" pfx d f1 = some (c, s0) →
      ∀ s : MetricState,
        calcDivider c s =
          if (s.stepCount : ℤ) < min 100 ⌊(1 : ℚ) / (1 - d)⌋
          then 1 - d ^ s.stepCount else 1 := by
  intro d pfx f1 c s0 hd0 hd1 hinit s
  have hsub : (0 : ℚ) < 1 - d := by linarith
  have hq : (0 : ℚ) < 1 / (1 - d) := div_pos one_pos hsub
  have htr : pyTrunc (1 / (1 - d)) = ⌊(1 : ℚ) / (1 - d)⌋ := by
    unfold pyTrunc
    rw [if_pos hq.le]
  unfold flowMetricsInit at hinit
  rw [if_pos (Or.inr rfl), if_neg (show ¬ ((1 : ℚ) - d = 0) from hsub.ne')] at hinit
  simp only [Option.some.injEq, Prod.mk.injEq] at hinit
  obtain ⟨hc, hs0⟩ := hinit
  subst hc
  simp only [calcDivider]
  rw [if_neg (by decide : ¬ (("ema" : String) = "epoch_mean"))]
  rw [htr]
  split_ifs with hcond
  · rfl
  · rw [sub_zero]

/-- C4 witness: with decay 3/5 the truncated bound is 2, so at
step_count = 0 the divider is 1 - (3/5)^0 = 0. -/
theorem claimC4_ema_divider_witness :
    calcDivider
      { averageMode := "ema", pfx := "", emaDecay := 3 / 5,
        f1Mode := "macro", emaMaxCount := 2 } initMetricState = 0 := by
  have h := claimC4_ema_divider (3 / 5) "" "macro"
      { averageMode := "ema", pfx := "", emaDecay := 3 / 5,
        f1Mode := "macro", emaMaxCount := 2 }
      initMetricState (by norm_num) (by norm_num)
      (by norm_num [flowMetricsInit, pyTrunc]) initMetricState
  rw [h]
  norm_num [initMetricState]

/-- C4 counterexample: with decay d = 3/5 the claim's bound min(100,
1/(1-d)) is 5/2, so at step_count = 2 < 5/2 the claim predicts divisor
1 - (3/5)^2 = 16/25; but the code truncates the bound to
int(5/2) = 2 and from step 2 on already uses divisor 1. -/
theorem claimC4_counterexample :
    flowMetricsInit "ema" "" (3 / 5) "macro"
      = some ({ averageMode := "ema", pfx := "", emaDecay := 3 / 5,
                f1Mode := "macro", emaMaxCount := 2 }, initMetricState)
  ∧ (2 : ℚ) < min 100 ((1 : ℚ) / (1 - 3 / 5))
  ∧ calcDivider
      { averageMode := "ema", pfx := "", emaDecay := 3 / 5,
        f1Mode := "macro", emaMaxCount := 2 }
      (flowUpdate
        { averageMode := "ema", pfx := "", emaDecay := 3 / 5,
          f1Mode := "macro", emaMaxCount := 2 }
        { epe := [[0]], targetNorm := [[0]], valid := [[1]], occ := none }
        (flowUpdate
          { averageMode := "ema", pfx := "", emaDecay := 3 / 5,
            f1Mode := "macro", emaMaxCount := 2 }
          { epe := [[0]], targetNorm := [[0]], valid := [[1]], occ := none }
          initMetricState)) = 1
  ∧ (1 : ℚ) - (3 / 5) ^ (2 : ℕ) ≠ 1 := by
  refine ⟨?_, by norm_num, ?_, by norm_num⟩
  · norm_num [flowMetricsInit, pyTrunc]
  · simp only [calcDivider]
    rw [if_neg (by decide : ¬ (("ema" : String) = "epoch_mean")),
      flowUpdate_stepCount, flowUpdate_stepCount]
    norm_num [initMetricState]

/-- C6: in cumulative (epoch_mean) mode, splitting a batch at any point
along the batch dimension and calling update once per sub-batch leads to
the same calculate_metrics()/compute() output as a single update on the
full batch (in exact arithmetic): per-sample contributions are summed and
the sample counter adds up, so only step_count differs, which the
epoch_mean divider ignores. -/
theorem claimC6_split_batch :
    ∀ (cfg : Config), cfg.averageMode = "epoch_mean" →
      ∀ (b : BatchData) (n : ℕ) (s : MetricState),
        calculateMetrics cfg
          (flowUpdate cfg (batchDrop n b) (flowUpdate cfg (batchTake n b) s))
          = calculateMetrics cfg (flowUpdate cfg b s) := by
  intro cfg h b n s
  rw [flowUpdate_epoch_split cfg h b n s]
  exact calculateMetrics_stepCount_irrel cfg h _ _

/-- C6 witness: a concrete two-sample batch split after the first sample
gives the same reported metrics as the unsplit batch. -/
theorem claimC6_split_batch_witness :
    cfgEpoch.averageMode = "epoch_mean"
  ∧ calculateMetrics cfgEpoch
      (flowUpdate cfgEpoch
        (batchDrop 1 { epe := [[0], [2]], targetNorm := [[1], [1]],
                       valid := [[1], [1]], occ := none })
        (flowUpdate cfgEpoch
          (batchTake 1 { epe := [[0], [2]], targetNorm := [[1], [1]],
                         valid := [[1], [1]], occ := none })
          initMetricState))
      = calculateMetrics cfgEpoch
          (flowUpdate cfgEpoch
            { epe := [[0], [2]], targetNorm := [[1], [1]],
              valid := [[1], [1]], occ := none }
            initMetricState) :=
  ⟨rfl, claimC6_split_batch cfgEpoch rfl
    { epe := [[0], [2]], targetNorm := [[1], [1]],
      valid := [[1], [1]], occ := none } 1 initMetricState⟩

/-- C2 (amended): canonicalization sends ranks 2-5 to the 4-D layout
(with the rank-3 leading dim treated as batch exactly when it equals the
reference batch size) but a rank-6 tensor only collapses its two leading
dims, producing a 5-D result; the reference batch size is 1 below rank 4,
dim0 at rank 4, dim0*dim1 at rank 5 and dim0 at rank 6. -/
theorem claimC2_canonicalization :
    (∀ h w bs, fixShape [h, w] bs = [1, 1, h, w])
  ∧ (∀ c h w bs,
      fixShape [c, h, w] bs = if c = bs then [c, 1, h, w] else [1, c, h, w])
  ∧ (∀ a b c d bs, fixShape [a, b, c, d] bs = [a, b, c, d])
  ∧ (∀ a b c d e bs, fixShape [a, b, c, d, e] bs = [a * b, c, d, e])
  ∧ (∀ a b c d e f bs, fixShape [a, b, c, d, e, f] bs = [a * b, c, d, e, f])
  ∧ (∀ h w, getBatchSize [h, w] = some 1)
  ∧ (∀ c h w, getBatchSize [c, h, w] = some 1)
  ∧ (∀ a b c d, getBatchSize [a, b, c, d] = some a)
  ∧ (∀ a b c d e, getBatchSize [a, b, c, d, e] = some (a * b))
  ∧ (∀ a b c d e f, getBatchSize [a, b, c, d, e, f] = some a) :=
  ⟨fun _ _ _ => rfl, fun _ _ _ _ => rfl, fun _ _ _ _ _ => rfl,
   fun _ _ _ _ _ _ => rfl, fun _ _ _ _ _ _ _ => rfl, fun _ _ => rfl,
   fun _ _ _ => rfl, fun _ _ _ _ => rfl, fun _ _ _ _ _ => rfl,
   fun _ _ _ _ _ _ => rfl⟩

/-- C2 counterexample: a rank-6 input tensor is not canonicalized to a
4-D layout: with reference batch size 2 the shape [2,3,2,8,4,4] becomes
the 5-D [6,2,8,4,4]. -/
theorem claimC2_counterexample :
    getBatchSize [2, 3, 2, 8, 4, 4] = some 2
  ∧ fixShape [2, 3, 2, 8, 4, 4] 2 = [6, 2, 8, 4, 4]
  ∧ (fixShape [2, 3, 2, 8, 4, 4] 2).length ≠ 4 :=
  ⟨rfl, rfl, by decide⟩

/-- C8 (amended): construction succeeds exactly when the averaging mode is
one of the two recognized strings and additionally ema_decay is not 1;
at ema_decay = 1 the unconditional ema_max_count computation divides by
zero, so construction raises even for a recognized mode.  No other
argument is validated. -/
theorem claimC8_init_validation :
    ∀ (mode pfx : String) (d : ℚ) (f1 : String),
      (flowMetricsInit mode pfx d f1).isSome ↔
        ((mode = "epoch_mean" ∨ mode = "ema") ∧ d ≠ 1) := by
  intro mode pfx d f1
  by_cases h1 : mode = "epoch_mean" ∨ mode = "ema"
  · rcases eq_or_ne d 1 with rfl | hd
    · simp [flowMetricsInit, h1]
    · have hz : (1 : ℚ) - d ≠ 0 := sub_ne_zero.mpr (Ne.symm hd)
      simp [flowMetricsInit, h1, hz, hd]
  · simp [flowMetricsInit, h1]

/-- C8 counterexample: with the recognized mode epoch_mean but
ema_decay = 1, construction fails (ZeroDivisionError in
min(100, int(1.0 / (1.0 - ema_decay)))), contradicting the claim that
construction succeeds for either recognized value. -/
theorem claimC8_counterexample :
    flowMetricsInit "epoch_mean" "" 1 "macro" = none := by
  simp [flowMetricsInit]

/-- C10: a freshly constructed accumulator has no used keys, so compute()
and calculate_metrics() return an empty mapping before any update call and
never divide by the zero sample count (or zero-valued EMA divisor). -/
theorem claimC10_empty_before_update :
    ∀ (mode pfx : String) (d : ℚ) (f1 : String) (c : Config) (s : MetricState),
      flowMetricsInit mode pfx d f1 = some (c, s) →
        s.usedKeys = [] ∧ calculateMetrics c s = [] := by
  intro mode pfx d f1 c s h
  unfold flowMetricsInit at h
  split_ifs at h
  cases h
  exact ⟨rfl, rfl⟩

/-- C10 witness: a concrete construction, epoch_mean mode with decay 1/2,
reports the empty mapping before any update. -/
theorem claimC10_empty_before_update_witness :
    initMetricState.usedKeys = []
  ∧ calculateMetrics
      { averageMode := "epoch_mean", pfx := "p", emaDecay := 1 / 2,
        f1Mode := "macro", emaMaxCount := 2 } initMetricState = [] :=
  claimC10_empty_before_update "epoch_mean" "p" (1 / 2) "macro" _ _ (by
    norm_num [flowMetricsInit, pyTrunc])

/-- C7: the F1 formula is symmetric in the fp and fn counts (for the
claimed nonnegative counts and positive epsilon), so _single_f1_score,
whose fp/fn computations are swapped relative to the textbook convention,
returns exactly the same value as the conventionally labelled
computation. -/
theorem claimC7_f1_symmetry :
    (∀ tp fp fn eps : ℚ, 0 ≤ tp → 0 ≤ fp → 0 ≤ fn → 0 < eps →
        f1FromCounts tp fp fn eps = f1FromCounts tp fn fp eps)
  ∧ (∀ (pred target : List ℚ) (eps : ℚ),
        singleF1score pred target eps = singleF1scoreSpec pred target eps) := by
  constructor
  · intro tp fp fn eps _ _ _ _
    exact f1FromCounts_symm tp fp fn eps
  · intro pred target eps
    simp only [singleF1score, singleF1scoreSpec]
    exact f1FromCounts_symm _ _ _ _

/-- C7 witness: the symmetry at the concrete counts tp=1, fp=2, fn=3,
eps=1. -/
theorem claimC7_f1_symmetry_witness :
    f1FromCounts 1 2 3 1 = f1FromCounts 1 3 2 1 :=
  claimC7_f1_symmetry.1 1 2 3 1 (by norm_num) (by norm_num) (by norm_num)
    (by norm_num)

/-- C3 (amended): for a single-sample batch whose endpoint error is a
constant m > 5 with an all-ones validity mask, update contributes 0 to the
below-1/3/5px statistics and 0 to the weighted AUC; the Fl-all
contribution is 100 provided m additionally exceeds 5 percent of the
target-flow magnitude at every pixel (the bad-pixel test also requires
epe > 0.05 * target_norm, which a constant deviation of magnitude larger
than 5 does not automatically satisfy). -/
theorem claimC3_large_error_batch :
    ∀ (k : ℕ) (m : ℚ) (tnorm : List ℚ), 0 < k → 5 < m →
      (flowUpdate cfgEpoch
          { epe := [List.replicate k m], targetNorm := [tnorm],
            valid := [List.replicate k 1], occ := none } initMetricState).px1 = 0
    ∧ (flowUpdate cfgEpoch
          { epe := [List.replicate k m], targetNorm := [tnorm],
            valid := [List.replicate k 1], occ := none } initMetricState).px3 = 0
    ∧ (flowUpdate cfgEpoch
          { epe := [List.replicate k m], targetNorm := [tnorm],
            valid := [List.replicate k 1], occ := none } initMetricState).px5 = 0
    ∧ (flowUpdate cfgEpoch
          { epe := [List.replicate k m], targetNorm := [tnorm],
            valid := [List.replicate k 1], occ := none } initMetricState).wauc = 0
    ∧ ((∀ t ∈ tnorm, (1 / 20) * t < m) → tnorm.length = k →
        (flowUpdate cfgEpoch
          { epe := [List.replicate k m], targetNorm := [tnorm],
            valid := [List.replicate k 1], occ := none } initMetricState).flall
          = 100) := by
  intro k m tnorm hk hm
  have h1 : ¬ (m < 1) := by linarith
  have h3 : ¬ (m < 3) := by linarith
  have h5 : ¬ (m < 5) := by linarith
  refine ⟨?_, ?_, ?_, ?_, ?_⟩
  · simp [flowUpdate, cfgEpoch, initMetricState, px1Mask, h1,
      computeTotal_singleton, sampleTotal_zero_left]
  · simp [flowUpdate, cfgEpoch, initMetricState, px3Mask, h3,
      computeTotal_singleton, sampleTotal_zero_left]
  · simp [flowUpdate, cfgEpoch, initMetricState, px5Mask, h5,
      computeTotal_singleton, sampleTotal_zero_left]
  · simp [flowUpdate, cfgEpoch, initMetricState, computeTotalWauc_singleton,
      waucSample_replicate_large k m 1 (by norm_num) hm]
  · intro ht hlen
    have hfm : flallMask (List.replicate k m) tnorm = List.replicate k 100 := by
      simp only [flallMask]
      rw [zipWith_replicate_left, List.take_of_length_le hlen.le]
      refine List.eq_replicate_iff.mpr ⟨by simp [hlen], ?_⟩
      intro b hb
      obtain ⟨t, htm, rfl⟩ := List.mem_map.mp hb
      have h3m : (3 : ℚ) < m := by linarith
      have hcond : 3 < m ∧ 1 / 20 * t < m := ⟨h3m, ht t htm⟩
      rw [if_pos hcond, one_mul]
    simp [flowUpdate, cfgEpoch, initMetricState, computeTotal_singleton, hfm,
      sampleTotal_replicate k hk]

/-- C3 witness: the amended statement at the concrete input k=1, m=6,
target norm 20 (where 6 does exceed 5 percent of 20). -/
theorem claimC3_large_error_batch_witness :
    0 < 1 ∧ (5 : ℚ) < 6
  ∧ (flowUpdate cfgEpoch
      { epe := [List.replicate 1 (6 : ℚ)], targetNorm := [[20]],
        valid := [List.replicate 1 (1 : ℚ)], occ := none }
      initMetricState).wauc = 0 :=
  ⟨Nat.one_pos, by norm_num,
    (claimC3_large_error_batch 1 6 [20] Nat.one_pos (by norm_num)).2.2.2.1⟩

/-- C3 counterexample: prediction off by a constant vector of magnitude
6 > 5 everywhere, but against a target of norm 200 the relative branch of
the bad-pixel test fails (6 is not greater than 0.05 * 200 = 10), so the
Fl-all contribution is 0, not 100 as the claim states. -/
theorem claimC3_counterexample :
    (5 : ℚ) < 6
  ∧ (flowUpdate cfgEpoch
      { epe := [[6]], targetNorm := [[200]], valid := [[1]], occ := none }
      initMetricState).flall = 0 := by
  refine ⟨by norm_num, ?_⟩
  norm_num [flowUpdate, cfgEpoch, initMetricState, computeTotal_singleton,
    flallMask, sampleTotal]

/-- C5 (amended): for identical prediction and target and an all-ones
validity mask, the squared endpoint error is exactly 0 at every pixel, the
below-1/3/5px statistics each receive a full contribution of 1 (100
percent of the pixels), the Fl-all contribution is 0, and the weighted-AUC
contribution is strictly below 100 but within 2e-8 of it: the 1e-8
zero-division guard in the denominator keeps it from being exactly 100. -/
theorem claimC5_perfect_batch :
    ∀ (k : ℕ) (tnorm : List ℚ) (flow : List (ℚ × ℚ)), 0 < k →
      epeSqList flow flow = List.replicate flow.length 0
    ∧ (flowUpdate cfgEpoch
        { epe := [List.replicate k 0], targetNorm := [tnorm],
          valid := [List.replicate k 1], occ := none } initMetricState).epe = 0
    ∧ (flowUpdate cfgEpoch
        { epe := [List.replicate k 0], targetNorm := [tnorm],
          valid := [List.replicate k 1], occ := none } initMetricState).px1 = 1
    ∧ (flowUpdate cfgEpoch
        { epe := [List.replicate k 0], targetNorm := [tnorm],
          valid := [List.replicate k 1], occ := none } initMetricState).px3 = 1
    ∧ (flowUpdate cfgEpoch
        { epe := [List.replicate k 0], targetNorm := [tnorm],
          valid := [List.replicate k 1], occ := none } initMetricState).px5 = 1
    ∧ (flowUpdate cfgEpoch
        { epe := [List.replicate k 0], targetNorm := [tnorm],
          valid := [List.replicate k 1], occ := none } initMetricState).flall = 0
    ∧ 100 - 2 / 100000000 < (flowUpdate cfgEpoch
        { epe := [List.replicate k 0], targetNorm := [tnorm],
          valid := [List.replicate k 1], occ := none } initMetricState).wauc
    ∧ (flowUpdate cfgEpoch
        { epe := [List.replicate k 0], targetNorm := [tnorm],
          valid := [List.replicate k 1], occ := none } initMetricState).wauc
        < 100 := by
  intro k tnorm flow hk
  have hK1 : (1 : ℚ) ≤ (k : ℚ) := by exact_mod_cast hk
  have hws := waucSample_replicate_zero k 1 (by norm_num)
  have hfm : flallMask (List.replicate k 0) tnorm
      = List.replicate (tnorm.take k).length 0 := by
    simp only [flallMask]
    rw [zipWith_replicate_left]
    refine List.eq_replicate_iff.mpr ⟨by simp, ?_⟩
    intro b hb
    obtain ⟨t, htm, rfl⟩ := List.mem_map.mp hb
    norm_num
  refine ⟨?_, ?_, ?_, ?_, ?_, ?_, ?_, ?_⟩
  · rw [epeSqList, List.zipWith_same]
    refine List.eq_replicate_iff.mpr ⟨by simp, ?_⟩
    intro b hb
    obtain ⟨t, htm, rfl⟩ := List.mem_map.mp hb
    ring
  · simp [flowUpdate, cfgEpoch, initMetricState, computeTotal_singleton,
      sampleTotal_zero_left]
  · norm_num [flowUpdate, cfgEpoch, initMetricState, px1Mask,
      computeTotal_singleton, sampleTotal_replicate k hk]
  · norm_num [flowUpdate, cfgEpoch, initMetricState, px3Mask,
      computeTotal_singleton, sampleTotal_replicate k hk]
  · norm_num [flowUpdate, cfgEpoch, initMetricState, px5Mask,
      computeTotal_singleton, sampleTotal_replicate k hk]
  · simp [flowUpdate, cfgEpoch, initMetricState, computeTotal_singleton, hfm,
      sampleTotal_zero_left]
  · simp [flowUpdate, cfgEpoch, initMetricState, computeTotalWauc_singleton, hws]
    rw [lt_div_iff₀ (by positivity)]
    nlinarith [hK1]
  · simp [flowUpdate, cfgEpoch, initMetricState, computeTotalWauc_singleton, hws]
    rw [div_lt_iff₀ (by positivity)]
    nlinarith [hK1]

/-- C5 witness: the amended statement at the concrete input k=1 with empty
target-norm data and an empty flow field. -/
theorem claimC5_perfect_batch_witness :
    0 < 1
  ∧ (flowUpdate cfgEpoch
      { epe := [List.replicate 1 (0 : ℚ)], targetNorm := [([] : List ℚ)],
        valid := [List.replicate 1 (1 : ℚ)], occ := none }
      initMetricState).px1 = 1 :=
  ⟨Nat.one_pos, (claimC5_perfect_batch 1 [] [] Nat.one_pos).2.2.1⟩

/-- C5 counterexample: for a one-pixel perfect prediction the weighted-AUC
contribution is 100 * 50.5 / (50.5 + 1e-8), which is not exactly 100 as
the claim states (the 1e-8 guard in the denominator keeps it short). -/
theorem claimC5_counterexample :
    (flowUpdate cfgEpoch
      { epe := [List.replicate 1 (0 : ℚ)], targetNorm := [([] : List ℚ)],
        valid := [List.replicate 1 (1 : ℚ)], occ := none }
      initMetricState).wauc ≠ 100 := by
  have hws := waucSample_replicate_zero 1 1 (by norm_num)
  simp only [List.replicate_one] at hws
  simp [flowUpdate, cfgEpoch, initMetricState, computeTotalWauc_singleton]
  rw [hws]
  norm_num

/-- C9: in the wAUC computation a pixel is excluded from every threshold
bucket exactly by the sentinel applied when its validity is below 0.5
(first conjunct: with a single sub-threshold pixel every bucket count is
empty and the score is 0), while the denominator keeps the raw fractional
validity; hence a pixel with validity 1/2 counts fully in the buckets but
only half in the denominator, and the soft-masked score strictly exceeds
both the score of the consistent hard mask and 100 itself. -/
theorem claimC9_wauc_soft_mask :
    (∀ (e v : ℚ), v < 1 / 2 → waucSample [e] [v] = 0)
  ∧ hardMask [(1 / 2 : ℚ)] = [1]
  ∧ waucSample [(0 : ℚ)] (hardMask [(1 / 2 : ℚ)]) < waucSample [(0 : ℚ)] [1 / 2]
  ∧ (100 : ℚ) < waucSample [(0 : ℚ)] [1 / 2] := by
  have hhard : hardMask [(1 / 2 : ℚ)] = [1] := by
    norm_num [hardMask]
  have h11 := waucSample_replicate_zero 1 1 (by norm_num)
  have h12 := waucSample_replicate_zero 1 (1 / 2) (by norm_num)
  simp only [List.replicate_one] at h11 h12
  refine ⟨?_, hhard, ?_, ?_⟩
  · intro e v hv
    have hmask : List.zipWith (fun ev vv => if vv < 1 / 2 then (100 : ℚ) else ev)
        [e] [v] = [(100 : ℚ)] := by
      show [if v < 1 / 2 then (100 : ℚ) else e] = [(100 : ℚ)]
      rw [if_pos hv]
    simp only [waucSample, hmask]
    have hw : (waucTerms.map (fun p =>
        p.1 * ((([(100 : ℚ)].filter (fun x => x ≤ p.2)).length : ℚ)))).sum = 0 := by
      apply List.sum_eq_zero
      intro x hx
      obtain ⟨p, hp, rfl⟩ := List.mem_map.mp hx
      have hd := waucTerms_delta p hp
      have hnle : ¬ ((100 : ℚ) ≤ p.2) := by linarith [hd.2]
      simp [List.filter_cons, hnle]
    rw [hw]
    simp
  · rw [hhard, h11, h12]
    norm_num
  · rw [h12]
    norm_num

/-- C9 witness: the sentinel exclusion applied at the concrete pixel with
error 7 and validity 0 (below the 0.5 threshold). -/
theorem claimC9_wauc_soft_mask_witness :
    (0 : ℚ) < 1 / 2 ∧ waucSample [(7 : ℚ)] [(0 : ℚ)] = 0 :=
  ⟨by norm_num, claimC9_wauc_soft_mask.1 7 0 (by norm_num)⟩

/-- C1 (amended): the set of statistic keys reported by compute() is not
monotone over the accumulator's lifetime: update reassigns used_keys on
every call, so compute() reports exactly the keys computed by the most
recent update call, independent of any earlier state; the occlusion-split
keys are present exactly when the latest update carried an occlusion
target. -/
theorem claimC1_keys_track_last_update :
    ∀ (cfg : Config) (b : BatchData) (s s' : MetricState),
      (flowUpdate cfg b s).usedKeys = (flowUpdate cfg b s').usedKeys
    ∧ ((flowUpdate cfg b s).usedKeys =
        if b.occ.isSome then usedKeysBase ++ usedKeysOcc else usedKeysBase)
    ∧ ("epe_occ" ∈ (flowUpdate cfg b s).usedKeys ↔ b.occ.isSome)
    ∧ (calculateMetrics cfg (flowUpdate cfg b s)).map Prod.fst =
        (flowUpdate cfg b s).usedKeys.map (fun k => cfg.pfx ++ k) := by
  intro cfg b s s'
  cases hocc : b.occ with
  | none =>
    refine ⟨?_, ?_, ?_, ?_⟩ <;>
      simp [flowUpdate, hocc, calculateMetrics, usedKeysBase, usedKeysOcc,
        List.map_map, Function.comp]
  | some o =>
    refine ⟨?_, ?_, ?_, ?_⟩ <;>
      simp [flowUpdate, hocc, calculateMetrics, usedKeysBase, usedKeysOcc,
        List.map_map, Function.comp]

/-- C1 counterexample: after an update with an occlusion target followed
by an update without one, the epe_occ key activated by the first call is
no longer reported, so the reported key set does not grow monotonically. -/
theorem claimC1_counterexample :
    "epe_occ" ∈ (calculateMetrics cfgEpoch
        (flowUpdate cfgEpoch ⟨[[0]], [[0]], [[1]], some [[1]]⟩
          initMetricState)).map Prod.fst
  ∧ "epe_occ" ∉ (calculateMetrics cfgEpoch
      (flowUpdate cfgEpoch ⟨[[0]], [[0]], [[1]], none⟩
        (flowUpdate cfgEpoch ⟨[[0]], [[0]], [[1]], some [[1]]⟩
          initMetricState))).map Prod.fst := by
  constructor
  · simp [calculateMetrics, flowUpdate, cfgEpoch, usedKeysBase, usedKeysOcc,
      List.map_map, Function.comp]
  · simp [calculateMetrics, flowUpdate, cfgEpoch, usedKeysBase, usedKeysOcc,
      List.map_map, Function.comp]

end PtlFlow
